import Mathlib

/-!
Verification of the rclcpp guard-condition and liveness-collection core.

The data model follows `src/rclcpp/include/rclcpp/guard_condition.hpp`
(member initializers at lines 126-133).  The bodies of the member
functions and of the memory strategy's `collect_entities` are not part of
the visible sources, so they are modelled from the specification
(section 4 of spec.md), as noted on each definition.
-/

namespace rclcpp

/-- Errors surfaced by the modelled operations: `std::invalid_argument`
for a null context, an RCLError-based exception when the underlying rcl
guard condition cannot be created, a runtime error when the rcl trigger
call fails, and the usage error for registering into a second wait set. -/
inductive GCError where
  | invalidArgument
  | initializationFailure
  | signalFailure
  | inUseByAnotherWaitSet
deriving DecidableEq

/-- State of a `rclcpp::GuardCondition`, mirroring the data members
declared at guard_condition.hpp lines 126-133.  The callback
`std::function<void(size_t)>` is modelled by an opaque callback identity
(`none` is the null/empty callback); the opaque `void * wait_set_`
identity token is modelled by an optional numeric token that is only
ever compared, never dereferenced. -/
structure GuardConditionState where
  in_use_by_wait_set_ : Bool
  on_trigger_callback_ : Option Nat
  unread_count_ : Nat
  wait_set_ : Option Nat
deriving DecidableEq

/-- The member-initializer state from guard_condition.hpp lines 126-133:
`in_use_by_wait_set_{false}`, `on_trigger_callback_{nullptr}`,
`unread_count_{0}`, `wait_set_{nullptr}`. -/
def initialGuardCondition : GuardConditionState :=
  { in_use_by_wait_set_ := false
    on_trigger_callback_ := none
    unread_count_ := 0
    wait_set_ := none }

/-- Modelled from the spec: the body of `GuardCondition::GuardCondition`
is not under src/.  Spec 4.1: construction fails with an
invalid-argument error if the context is null, fails with a runtime
initialization error if the underlying trigger primitive cannot be
created, and otherwise yields a fully initialized guard condition
(member initializers from the header).  `primitive_ok` models whether
the platform layer can create the trigger primitive. -/
def construct (context : Option Nat) (primitive_ok : Bool) :
    Except GCError GuardConditionState :=
  match context with
  | none => .error .invalidArgument
  | some _ =>
    if primitive_ok then .ok initialGuardCondition
    else .error .initializationFailure

/-- Modelled from the spec: the body of `GuardCondition::trigger` is not
under src/.  Spec 4.1: signal the underlying trigger primitive and,
under the reentrant exclusion lock, if a callback is installed invoke it
synchronously with `unread_count + 1` and reset `unread_count` to 0;
otherwise increment `unread_count`.  It fails with a runtime error only
if the primitive signal operation fails, and such a failure does not
corrupt internal counters.  `signal_ok` models whether the rcl signal
call succeeds; the returned list records the synchronous callback
invocations as (callback identity, argument) pairs. -/
def trigger (s : GuardConditionState) (signal_ok : Bool) :
    Except GCError Unit × GuardConditionState × List (Nat × Nat) :=
  if signal_ok then
    match s.on_trigger_callback_ with
    | some cb =>
      (.ok (), { s with unread_count_ := 0 }, [(cb, s.unread_count_ + 1)])
    | none =>
      (.ok (), { s with unread_count_ := s.unread_count_ + 1 }, [])
  else
    (.error .signalFailure, s, [])

/-- Modelled from the spec: the body of
`GuardCondition::set_on_trigger_callback` is not under src/.  Spec 4.1:
replaces any previously installed callback; if `unread_count > 0` at
install time the new callback is invoked immediately with that backlog
count and the counter resets to 0; passing an empty callback clears the
callback, reverting to accumulation mode. -/
def set_on_trigger_callback (s : GuardConditionState) (callback : Option Nat) :
    GuardConditionState × List (Nat × Nat) :=
  match callback with
  | some cb =>
    if 0 < s.unread_count_ then
      ({ s with on_trigger_callback_ := some cb, unread_count_ := 0 },
        [(cb, s.unread_count_)])
    else
      ({ s with on_trigger_callback_ := some cb }, [])
  | none => ({ s with on_trigger_callback_ := none }, [])

/-- Modelled from the spec: the body of
`GuardCondition::exchange_in_use_by_wait_set_state` is not under src/.
Spec 4.1: an atomic read-modify-write on the `in_use_by_wait_set_` flag
that stores the new state and returns the previous state. -/
def exchange_in_use_by_wait_set_state (s : GuardConditionState)
    (in_use_state : Bool) : GuardConditionState × Bool :=
  ({ s with in_use_by_wait_set_ := in_use_state }, s.in_use_by_wait_set_)

/-- Modelled from the spec: the body of `GuardCondition::add_to_wait_set`
is not under src/.  Spec 4.1: registers the underlying handle and stores
the wait-set identity token when not yet registered; repeated calls with
the same identity are a no-op; calling with a different identity while
already registered elsewhere is a usage error.  The stored token is
compared only, never dereferenced. -/
def add_to_wait_set (s : GuardConditionState) (wait_set : Nat) :
    Except GCError GuardConditionState :=
  match s.wait_set_ with
  | none => .ok { s with wait_set_ := some wait_set }
  | some w =>
    if w = wait_set then .ok s else .error .inUseByAnotherWaitSet

/-- A sequence of `n` successful `trigger()` calls, collecting the
callback invocations of all of them in order. -/
def runTriggers : Nat → GuardConditionState →
    GuardConditionState × List (Nat × Nat)
  | 0, s => (s, [])
  | n + 1, s =>
    let r := trigger s true
    let rest := runTriggers n r.2.1
    (rest.1, r.2.2 ++ rest.2)

/-- A parent entity (node interface) exposing its waitable handles,
opaque to the collector. -/
structure ParentEntity where
  handles : List Nat
deriving DecidableEq

/-- A weak reference to a parent entity: `none` when expired. -/
abbrev WeakRef := Option ParentEntity

/-- The scheduling-group-to-parent mapping walked by `collect_entities`
(`WeakCallbackGroupsToNodesMap` in test_find_weak_nodes.cpp). -/
abbrev WeakGroupsToNodesMap := List (Nat × WeakRef)

/-- Modelled from the spec: the body of
`AllocatorMemoryStrategy::collect_entities` is not under src/ (only its
test is).  Spec 4.2, per entry: if the weak reference resolves, append
the parent's waitable handles to the accumulated collection; if it does
not resolve, skip its handles and set the invalid flag.  The visited
entry itself is re-emitted unchanged (the mapping is read-only).  The
accumulator is (invalid flag, collected handles, entries visited so
far). -/
def collect_step (acc : Bool × List Nat × WeakGroupsToNodesMap)
    (entry : Nat × WeakRef) : Bool × List Nat × WeakGroupsToNodesMap :=
  match entry.2 with
  | some parent => (acc.1, acc.2.1 ++ parent.handles, acc.2.2 ++ [entry])
  | none => (true, acc.2.1, acc.2.2 ++ [entry])

/-- Modelled from the spec: `collect_entities(group_to_parent_mapping)`
visits every entry exactly once, accumulates the live entries' handles,
reports whether some entry was invalid, and does not mutate the input
mapping.  Returns (has invalid entries, collected handles, the mapping
as visited). -/
def collect_entities (m : WeakGroupsToNodesMap) :
    Bool × List Nat × WeakGroupsToNodesMap :=
  m.foldl collect_step (false, [], [])

/-- Handles of the live entries of a mapping, in entry order. -/
def liveHandles (m : WeakGroupsToNodesMap) : List Nat :=
  ((m.filterMap Prod.snd).map ParentEntity.handles).flatten

/-- Whether some entry of the mapping has an expired weak reference. -/
def hasExpired (m : WeakGroupsToNodesMap) : Bool :=
  m.any (fun e => e.2.isNone)

theorem foldl_collect_step (m : WeakGroupsToNodesMap) (b : Bool)
    (h : List Nat) (v : WeakGroupsToNodesMap) :
    m.foldl collect_step (b, h, v) =
      (b || hasExpired m, h ++ liveHandles m, v ++ m) := by
  induction m generalizing b h v with
  | nil => simp [hasExpired, liveHandles]
  | cons e rest ih =>
    match e with
    | (g, some p) =>
      simp only [List.foldl_cons, collect_step, hasExpired, liveHandles,
        List.any_cons, List.filterMap_cons, List.map_cons,
        Option.isNone_some] at ih ⊢
      rw [ih]
      simp [hasExpired, liveHandles, List.append_assoc]
    | (g, none) =>
      simp only [List.foldl_cons, collect_step, hasExpired, liveHandles,
        List.any_cons, List.filterMap_cons, List.map_cons,
        Option.isNone_none] at ih ⊢
      rw [ih]
      simp [hasExpired, liveHandles, List.append_assoc]

theorem trigger_no_callback (s : GuardConditionState)
    (h : s.on_trigger_callback_ = none) :
    trigger s true =
      (.ok (), { s with unread_count_ := s.unread_count_ + 1 }, []) := by
  simp [trigger, h]

theorem runTriggers_no_callback (n : Nat) (s : GuardConditionState)
    (h : s.on_trigger_callback_ = none) :
    runTriggers n s = ({ s with unread_count_ := s.unread_count_ + n }, []) := by
  induction n generalizing s with
  | zero => simp [runTriggers]
  | succ n ih =>
    have hrec := ih { s with unread_count_ := s.unread_count_ + 1 } h
    simp only [runTriggers, trigger_no_callback s h, hrec]
    have hn : s.unread_count_ + 1 + n = s.unread_count_ + (n + 1) := by omega
    simp [hn]

theorem trigger_with_callback (s : GuardConditionState) (cb : Nat)
    (h : s.on_trigger_callback_ = some cb) (h0 : s.unread_count_ = 0) :
    trigger s true = (.ok (), s, [(cb, 1)]) := by
  obtain ⟨u, c, k, w⟩ := s
  simp at h h0
  subst h h0
  rfl

theorem runTriggers_with_callback (n : Nat) (s : GuardConditionState) (cb : Nat)
    (h : s.on_trigger_callback_ = some cb) (h0 : s.unread_count_ = 0) :
    runTriggers n s = (s, List.replicate n (cb, 1)) := by
  induction n with
  | zero => simp [runTriggers]
  | succ n ih =>
    simp only [runTriggers, trigger_with_callback s cb h h0, ih]
    simp [List.replicate_succ]

/-- C1: each `trigger()` with no callback installed increments
`unread_count_` by exactly one and makes no callback invocation, so a
sequence of N such calls from a fresh guard condition accumulates
`unread_count_ = N`, and that is the count observed (and delivered) at
the next callback installation. -/
theorem C1_trigger_accumulation (n : Nat) (s : GuardConditionState)
    (h : s.on_trigger_callback_ = none) :
    runTriggers n s = ({ s with unread_count_ := s.unread_count_ + n }, []) ∧
    trigger s true =
      (.ok (), { s with unread_count_ := s.unread_count_ + 1 }, []) ∧
    ((runTriggers n initialGuardCondition).1).unread_count_ = n ∧
    (∀ cb, 0 < n →
      (set_on_trigger_callback
        (runTriggers n initialGuardCondition).1 (some cb)).2 = [(cb, n)]) := by
  have hinit := runTriggers_no_callback n initialGuardCondition rfl
  refine ⟨runTriggers_no_callback n s h, trigger_no_callback s h, ?_, ?_⟩
  · rw [hinit]
    simp [initialGuardCondition]
  · intro cb hn
    rw [hinit]
    simp [set_on_trigger_callback, initialGuardCondition, hn]

theorem C1_trigger_accumulation_witness :
    runTriggers 3 initialGuardCondition =
      ({ initialGuardCondition with unread_count_ := 3 }, []) ∧
    (set_on_trigger_callback
      (runTriggers 3 initialGuardCondition).1 (some 5)).2 = [(5, 3)] := by
  have h := C1_trigger_accumulation 3 initialGuardCondition rfl
  exact ⟨by simpa using h.1, h.2.2.2 5 (by decide)⟩

/-- C2: installing a non-empty callback while `unread_count_ = k > 0`
invokes that callback exactly once with argument k and resets
`unread_count_` to 0; if `unread_count_` is 0 at install time no
immediate invocation occurs. -/
theorem C2_callback_install_backlog (s : GuardConditionState) (cb : Nat) :
    (0 < s.unread_count_ →
      set_on_trigger_callback s (some cb) =
        ({ s with on_trigger_callback_ := some cb, unread_count_ := 0 },
          [(cb, s.unread_count_)])) ∧
    (s.unread_count_ = 0 →
      set_on_trigger_callback s (some cb) =
        ({ s with on_trigger_callback_ := some cb }, [])) := by
  constructor
  · intro h
    simp [set_on_trigger_callback, h]
  · intro h
    simp [set_on_trigger_callback, h]

theorem C2_callback_install_backlog_witness :
    set_on_trigger_callback
        { initialGuardCondition with unread_count_ := 4 } (some 9) =
      ({ initialGuardCondition with
          on_trigger_callback_ := some 9
          unread_count_ := 0 }, [(9, 4)]) ∧
    set_on_trigger_callback initialGuardCondition (some 9) =
      ({ initialGuardCondition with on_trigger_callback_ := some 9 }, []) := by
  refine ⟨?_, ?_⟩
  · have h := (C2_callback_install_backlog
      { initialGuardCondition with unread_count_ := 4 } 9).1 (by decide)
    simpa using h
  · exact (C2_callback_install_backlog initialGuardCondition 9).2 rfl

/-- C3: accumulation and callback invocation are mutually exclusive.
While a callback is installed and `unread_count_` is 0, every trigger
invokes the callback exactly once with argument 1 and leaves
`unread_count_` at 0 between triggers (also over whole sequences); while
no callback is installed, a trigger only accumulates and invokes
nothing. -/
theorem C3_exclusivity_invariant (s : GuardConditionState) :
    (∀ cb, s.on_trigger_callback_ = some cb → s.unread_count_ = 0 →
      trigger s true = (.ok (), s, [(cb, 1)])) ∧
    (s.on_trigger_callback_ = none →
      trigger s true =
        (.ok (), { s with unread_count_ := s.unread_count_ + 1 }, [])) ∧
    (∀ cb n, s.on_trigger_callback_ = some cb → s.unread_count_ = 0 →
      runTriggers n s = (s, List.replicate n (cb, 1))) :=
  ⟨fun cb h h0 => trigger_with_callback s cb h h0,
   fun h => trigger_no_callback s h,
   fun cb n h h0 => runTriggers_with_callback n s cb h h0⟩

theorem C3_exclusivity_invariant_witness :
    trigger { initialGuardCondition with on_trigger_callback_ := some 2 } true
      = (.ok (), { initialGuardCondition with on_trigger_callback_ := some 2 },
          [(2, 1)]) ∧
    runTriggers 3 { initialGuardCondition with on_trigger_callback_ := some 2 }
      = ({ initialGuardCondition with on_trigger_callback_ := some 2 },
          [(2, 1), (2, 1), (2, 1)]) := by
  have h := C3_exclusivity_invariant
    { initialGuardCondition with on_trigger_callback_ := some 2 }
  exact ⟨h.1 2 rfl rfl, by simpa [List.replicate] using h.2.2 2 3 rfl rfl⟩

/-- C4: `collect_entities` reports true iff some entry's weak reference
is expired, and the collected handles are exactly the live entries'
handles in order (so no short-circuit: live entries after an expired one
are still collected); an all-live mapping yields false and an
all-expired mapping collects zero handles. -/
theorem C4_collect_entities_correct (m : WeakGroupsToNodesMap) :
    ((collect_entities m).1 = true ↔ ∃ e ∈ m, e.2 = none) ∧
    (collect_entities m).2.1 = liveHandles m ∧
    ((∀ e ∈ m, e.2 ≠ none) → (collect_entities m).1 = false) ∧
    ((∀ e ∈ m, e.2 = none) → (collect_entities m).2.1 = []) := by
  have hfold := foldl_collect_step m false [] []
  have h1 : (collect_entities m).1 = hasExpired m := by
    simp [collect_entities, hfold]
  have h2 : (collect_entities m).2.1 = liveHandles m := by
    simp [collect_entities, hfold]
  have hiff : hasExpired m = true ↔ ∃ e ∈ m, e.2 = none := by
    simp [hasExpired, List.any_eq_true, Option.isNone_iff_eq_none]
  refine ⟨by rw [h1]; exact hiff, h2, ?_, ?_⟩
  · intro h
    rw [h1]
    cases hE : hasExpired m with
    | false => rfl
    | true =>
      obtain ⟨e, he, hnone⟩ := hiff.mp hE
      exact absurd hnone (h e he)
  · intro h
    rw [h2]
    have hnil : m.filterMap Prod.snd = [] :=
      List.filterMap_eq_nil_iff.mpr fun e he => h e he
    simp [liveHandles, hnil]

theorem C4_collect_entities_correct_witness :
    (collect_entities [(1, some ⟨[10]⟩), (2, some ⟨[11]⟩)]).1 = false ∧
    (collect_entities [(1, none), (2, none)]).2.1 = [] :=
  ⟨(C4_collect_entities_correct _).2.2.1 (by decide),
   (C4_collect_entities_correct _).2.2.2 (by decide)⟩

/-- C5: `exchange_in_use_by_wait_set_state(new_state)` stores the new
state into `in_use_by_wait_set_` and returns its previous value; in
particular, starting from the not-in-use state, calling it twice with
true returns false then true. -/
theorem C5_exchange_previous_state (s : GuardConditionState) :
    (∀ b, exchange_in_use_by_wait_set_state s b =
      ({ s with in_use_by_wait_set_ := b }, s.in_use_by_wait_set_)) ∧
    (s.in_use_by_wait_set_ = false →
      (exchange_in_use_by_wait_set_state s true).2 = false ∧
      (exchange_in_use_by_wait_set_state
        (exchange_in_use_by_wait_set_state s true).1 true).2 = true) :=
  ⟨fun _ => rfl, fun h => ⟨h, rfl⟩⟩

theorem C5_exchange_previous_state_witness :
    (exchange_in_use_by_wait_set_state initialGuardCondition true).2 = false ∧
    (exchange_in_use_by_wait_set_state
      (exchange_in_use_by_wait_set_state initialGuardCondition true).1
      true).2 = true :=
  (C5_exchange_previous_state initialGuardCondition).2 rfl

/-- C6: `add_to_wait_set` with the identity already stored is a no-op
leaving the state (including the stored identity) unchanged; with a
different identity while registered elsewhere it is a usage error; when
unregistered it stores the identity.  The identity token is only ever
compared. -/
theorem C6_add_to_wait_set_idempotent (s : GuardConditionState) (ws : Nat) :
    (s.wait_set_ = some ws → add_to_wait_set s ws = .ok s) ∧
    (∀ w, s.wait_set_ = some w → w ≠ ws →
      add_to_wait_set s ws = .error .inUseByAnotherWaitSet) ∧
    (s.wait_set_ = none →
      add_to_wait_set s ws = .ok { s with wait_set_ := some ws }) := by
  refine ⟨fun h => ?_, fun w hw hne => ?_, fun h => ?_⟩
  · simp [add_to_wait_set, h]
  · simp [add_to_wait_set, hw, hne]
  · simp [add_to_wait_set, h]

theorem C6_add_to_wait_set_idempotent_witness :
    add_to_wait_set { initialGuardCondition with wait_set_ := some 4 } 4 =
      .ok { initialGuardCondition with wait_set_ := some 4 } ∧
    add_to_wait_set { initialGuardCondition with wait_set_ := some 4 } 6 =
      .error .inUseByAnotherWaitSet ∧
    add_to_wait_set initialGuardCondition 4 =
      .ok { initialGuardCondition with wait_set_ := some 4 } :=
  ⟨(C6_add_to_wait_set_idempotent _ 4).1 rfl,
   (C6_add_to_wait_set_idempotent _ 6).2.1 4 rfl (by decide),
   (C6_add_to_wait_set_idempotent initialGuardCondition 4).2.2 rfl⟩

/-- C7: construction with a null context fails with an invalid-argument
error; construction when the trigger primitive cannot be created fails
with the propagated initialization error; every successful construction
yields exactly the fully initialized state, so no partially initialized
guard condition is observable. -/
theorem C7_construct_all_or_nothing (b : Bool) (c : Nat) :
    construct none b = .error .invalidArgument ∧
    construct (some c) false = .error .initializationFailure ∧
    construct (some c) true = .ok initialGuardCondition ∧
    (∀ ctx ok s, construct ctx ok = .ok s → s = initialGuardCondition) := by
  refine ⟨rfl, rfl, rfl, ?_⟩
  intro ctx ok s h
  cases ctx with
  | none => simp [construct] at h
  | some c2 =>
    cases ok with
    | true =>
      simp [construct] at h
      exact h.symm
    | false => simp [construct] at h

theorem C7_construct_all_or_nothing_witness :
    construct none true = .error .invalidArgument ∧
    construct (some 0) false = .error .initializationFailure ∧
    construct (some 0) true = .ok initialGuardCondition ∧
    initialGuardCondition = initialGuardCondition := by
  have h := C7_construct_all_or_nothing true 0
  exact ⟨h.1, h.2.1, h.2.2.1,
    h.2.2.2 (some 0) true initialGuardCondition h.2.2.1⟩

/-- C8: `trigger()` fails exactly when the underlying signal operation
fails; on failure the error is reported while the state is unchanged and
no callback is invoked, so subsequent `trigger()` and
`set_on_trigger_callback` calls behave as if the failed call had not
occurred. -/
theorem C8_trigger_failure_atomicity (s : GuardConditionState) :
    trigger s false = (.error .signalFailure, s, []) ∧
    (trigger s true).1 = .ok () ∧
    (∀ ok2, trigger (trigger s false).2.1 ok2 = trigger s ok2) ∧
    (∀ cb, set_on_trigger_callback (trigger s false).2.1 cb =
      set_on_trigger_callback s cb) := by
  refine ⟨rfl, ?_, fun ok2 => rfl, fun cb => rfl⟩
  cases h : s.on_trigger_callback_ <;> simp [trigger, h]

/-- C9: `collect_entities` leaves the group-to-parent mapping unchanged:
the sequence of entries it has visited and re-emitted equals the input
mapping, expired entries included. -/
theorem C9_collect_entities_frame (m : WeakGroupsToNodesMap) :
    (collect_entities m).2.2 = m := by
  simp [collect_entities, foldl_collect_step]

/-- C10: a freshly constructed guard condition (member initializers of
guard_condition.hpp lines 126-133) has `in_use_by_wait_set_` false,
`unread_count_` 0, no callback and no stored wait-set identity, so the
first exchange to true returns false and the first trigger accumulates
to 1 without any invocation. -/
theorem C10_initial_state :
    initialGuardCondition.in_use_by_wait_set_ = false ∧
    initialGuardCondition.unread_count_ = 0 ∧
    initialGuardCondition.on_trigger_callback_ = none ∧
    initialGuardCondition.wait_set_ = none ∧
    (exchange_in_use_by_wait_set_state initialGuardCondition true).2 = false ∧
    trigger initialGuardCondition true =
      (.ok (), { initialGuardCondition with unread_count_ := 1 }, []) :=
  ⟨rfl, rfl, rfl, rfl, rfl, rfl⟩

end rclcpp
